import Mathlib

/-!
Verification of the servergem persistent-connection client and progress
interpreter.

The development shallowly embeds the TypeScript sources:
  - `src/lib/websocket/WebSocketClient.ts` (transport client: reconnection
    backoff, heartbeat, message queue, event handlers),
  - `src/lib/websocket/config.ts` (WS_CONFIG, session identity),
  - the deployment log interpreter (`parseBackendLog`).

Machine numbers (delays, progress percentages) are modelled as exact
rationals; the only non-integer constants in the sources (1.5, 0.15) are
dyadic/decimal and their uses stay far from any float-rounding boundary.
Display-only detail strings built from regex captures are omitted from the
embedded stage updates: no verified property mentions them.  Each branch
condition, branch order and produced stage/status/progress value follows
the source line by line.
-/

namespace Servergem

/-! ## String utilities

`includes msg pat` embeds the JavaScript `msg.includes(pat)` substring
test, implemented directly over character lists. -/

def isPrefixL {α : Type} [DecidableEq α] : List α → List α → Bool
  | [], _ => true
  | _ :: _, [] => false
  | a :: as, b :: bs => a = b && isPrefixL as bs

def isSubL {α : Type} [DecidableEq α] (pat : List α) : List α → Bool
  | [] => isPrefixL pat []
  | c :: rest => isPrefixL pat (c :: rest) || isSubL pat rest

def includes (msg pat : String) : Bool := isSubL pat.data msg.data

/-- Remainder of the haystack after the first occurrence of `pat`
(`none` when `pat` does not occur). -/
def afterFirst {α : Type} [DecidableEq α] (pat : List α) : List α → Option (List α)
  | [] => if pat.isEmpty then some [] else none
  | c :: rest =>
    if isPrefixL pat (c :: rest) then some ((c :: rest).drop pat.length)
    else afterFirst pat rest

/-- ASCII-lowercased code point of a character (the patterns under the
`/i` flag are plain ASCII). -/
def lowerCode (c : Char) : Nat :=
  if 65 ≤ c.toNat ∧ c.toNat ≤ 90 then c.toNat + 32 else c.toNat

/-- Embeds the case-insensitive regex test `/a.*b/i` on a single log line:
some occurrence of `a` is followed (to its right) by an occurrence of `b`,
compared case-insensitively.  `a` and `b` are given already lowercased. -/
def containsSeqCI (msg a b : String) : Bool :=
  match afterFirst (a.data.map lowerCode) (msg.data.map lowerCode) with
  | some rest => isSubL (b.data.map lowerCode) rest
  | none => false

def digitVal (c : Char) : Nat := c.toNat - 48

/-- Embeds `message.match(/(\d+)%/)` followed by `parseInt` on the capture:
value of the first maximal digit run immediately followed by a percent
sign, `none` when the regex does not match. -/
def findPercentNumAux : List Char → Option Nat → Option Nat
  | [], _ => none
  | c :: cs, acc =>
    if c = '%' then
      match acc with
      | some v => some v
      | none => findPercentNumAux cs none
    else if c.isDigit then
      findPercentNumAux cs (some (10 * acc.getD 0 + digitVal c))
    else
      findPercentNumAux cs none

def findPercentNum (s : String) : Option Nat := findPercentNumAux s.data none

/-! ## Progress Interpreter (`parseBackendLog`) -/

/-- Structured stage update produced by the interpreter.  `stage`,
`status` and `progress` carry the source literal values; `message` is set
only by the error-detection branch.  The display-only `details` array of
the source is omitted (built from regex captures, referenced by no
verified property). -/
structure StageUpdate where
  stage : String
  status : String
  progress : ℚ
  message : Option String := none
deriving DecidableEq, Repr

/-- Embedding of `parseBackendLog`: the chain of early-returning `if`
statements of the source, in source order, each matching by substring. -/
def parseBackendLog (message : String) : Option StageUpdate :=
  -- pre-flight checks - starting
  if includes message "🔍 Running pre-flight checks" || includes message "pre-flight" then
    some { stage := "repo_access", status := "in-progress", progress := 1 }
  -- pre-flight checks - complete
  else if includes message "✅ All pre-flight checks passed" then
    some { stage := "repo_access", status := "success", progress := 3 }
  -- individual pre-flight check updates
  else if includes message "✅ Project access verified" then
    some { stage := "repo_access", status := "in-progress", progress := 1 }
  else if includes message "✅ Artifact Registry" || includes message "📦 Creating Artifact Registry" then
    some { stage := "repo_access", status := "in-progress", progress := 2 }
  -- repository cloning - starting
  else if includes message "[GitHubService] Cloning" || includes message "Cloning repository"
      || includes message "🚀 Starting repository clone" then
    some { stage := "repo_access", status := "in-progress", progress := 5 }
  -- repository cloning - complete
  else if (includes message "Cloning" && includes message "to") || includes message "Repository cloned" then
    some { stage := "repo_access", status := "success", progress := 15 }
  -- code analysis - starting
  else if includes message "[AnalysisService] Analyzing project" || includes message "Starting code analysis" then
    some { stage := "code_analysis", status := "in-progress", progress := 20 }
  -- code analysis - scanning
  else if includes message "Analyzing project at" then
    some { stage := "code_analysis", status := "in-progress", progress := 25 }
  -- code analysis - framework detection
  else if includes message "Detected framework" || containsSeqCI message "framework" "detected" then
    some { stage := "code_analysis", status := "in-progress", progress := 30 }
  -- code analysis - complete
  else if includes message "Analysis complete" || includes message "analysis_result" then
    some { stage := "code_analysis", status := "success", progress := 35 }
  -- Dockerfile generation - starting
  else if includes message "[AnalysisService] Generating Dockerfile" || includes message "Generating Dockerfile" then
    some { stage := "dockerfile_generation", status := "in-progress", progress := 40 }
  -- Dockerfile saving - in progress
  else if includes message "💾 Saving Dockerfile" then
    some { stage := "dockerfile_generation", status := "in-progress", progress := 48 }
  -- Dockerfile generation - complete
  else if includes message "[DockerService] Dockerfile saved" || includes message "Dockerfile created"
      || includes message "✅ Dockerfile saved" then
    some { stage := "dockerfile_generation", status := "success", progress := 50 }
  -- security scan - starting
  else if includes message "Security scan" || includes message "Scanning for vulnerabilities" then
    some { stage := "security_scan", status := "in-progress", progress := 55 }
  -- security scan - complete
  else if includes message "Security scan complete" || includes message "No vulnerabilities" then
    some { stage := "security_scan", status := "success", progress := 60 }
  -- container build - starting
  else if includes message "Building container image" || includes message "[DockerService] Building" then
    some { stage := "container_build", status := "in-progress", progress := 65 }
  -- container build - progress (scale to 65-80, source factor 0.15)
  else if includes message "Building" && includes message "%" then
    some { stage := "container_build", status := "in-progress",
           progress := 65 + ((findPercentNum message).getD 0 : ℚ) * (15 / 100) }
  -- container build - complete
  else if includes message "Container image built" || includes message "Build complete" then
    some { stage := "container_build", status := "success", progress := 80 }
  -- cloud deployment - starting
  else if includes message "Deploying to Cloud Run" || includes message "[GCloudService] Deploying" then
    some { stage := "cloud_deployment", status := "in-progress", progress := 85 }
  -- cloud deployment - progress
  else if includes message "Deployment progress" then
    some { stage := "cloud_deployment", status := "in-progress", progress := 90 }
  -- deployment health checks
  else if includes message "🔍 Verifying deployment health" || includes message "Waiting for service to be ready" then
    some { stage := "cloud_deployment", status := "in-progress", progress := 95 }
  -- cloud deployment - complete
  else if includes message "Deployment successful" || includes message "deployed successfully"
      || includes message "Service URL:" || includes message "🎉 Deployment complete" then
    some { stage := "cloud_deployment", status := "success", progress := 100 }
  -- error detection (the FINAL branch of the source)
  else if includes message "Error:" || includes message "Failed:" || includes message "[ERROR]" then
    some { stage := "unknown", status := "error", progress := 0, message := some message }
  else
    none

/-- The line carries one of the error markers of the error-detection
branch. -/
def hasErrorMarker (message : String) : Bool :=
  includes message "Error:" || includes message "Failed:" || includes message "[ERROR]"

/-- Disjunction of the conditions of every milestone branch that the
source checks BEFORE its error-detection branch. -/
def matchesMilestone (message : String) : Bool :=
  (includes message "🔍 Running pre-flight checks" || includes message "pre-flight")
  || includes message "✅ All pre-flight checks passed"
  || includes message "✅ Project access verified"
  || (includes message "✅ Artifact Registry" || includes message "📦 Creating Artifact Registry")
  || (includes message "[GitHubService] Cloning" || includes message "Cloning repository"
      || includes message "🚀 Starting repository clone")
  || ((includes message "Cloning" && includes message "to") || includes message "Repository cloned")
  || (includes message "[AnalysisService] Analyzing project" || includes message "Starting code analysis")
  || includes message "Analyzing project at"
  || (includes message "Detected framework" || containsSeqCI message "framework" "detected")
  || (includes message "Analysis complete" || includes message "analysis_result")
  || (includes message "[AnalysisService] Generating Dockerfile" || includes message "Generating Dockerfile")
  || includes message "💾 Saving Dockerfile"
  || (includes message "[DockerService] Dockerfile saved" || includes message "Dockerfile created"
      || includes message "✅ Dockerfile saved")
  || (includes message "Security scan" || includes message "Scanning for vulnerabilities")
  || (includes message "Security scan complete" || includes message "No vulnerabilities")
  || (includes message "Building container image" || includes message "[DockerService] Building")
  || (includes message "Building" && includes message "%")
  || (includes message "Container image built" || includes message "Build complete")
  || (includes message "Deploying to Cloud Run" || includes message "[GCloudService] Deploying")
  || includes message "Deployment progress"
  || (includes message "🔍 Verifying deployment health" || includes message "Waiting for service to be ready")
  || (includes message "Deployment successful" || includes message "deployed successfully"
      || includes message "Service URL:" || includes message "🎉 Deployment complete")

/-! ## Transport Client configuration (`config.ts`) -/

structure ReconnectConfig where
  enabled : Bool
  maxAttempts : Nat
  initialDelay : ℚ
  maxDelay : ℚ
  backoffMultiplier : ℚ
deriving DecidableEq, Repr

structure HeartbeatConfig where
  enabled : Bool
  interval : ℚ
  timeout : ℚ
deriving DecidableEq, Repr

structure MessageQueueConfig where
  enabled : Bool
  maxSize : Nat
deriving DecidableEq, Repr

structure WebSocketConfig where
  reconnect : ReconnectConfig
  heartbeat : HeartbeatConfig
  messageQueue : MessageQueueConfig
deriving DecidableEq, Repr

/-- The shipped `WS_CONFIG` (the `url` field, an environment-derived
string, is omitted: no verified property mentions it).  The source
multiplier literal 1.5 is the exact rational 3/2. -/
def WS_CONFIG : WebSocketConfig where
  reconnect :=
    { enabled := true
      maxAttempts := 10
      initialDelay := 1000
      maxDelay := 30000
      backoffMultiplier := 3 / 2 }
  heartbeat :=
    { enabled := true
      interval := 30000
      timeout := 5000 }
  messageQueue :=
    { enabled := true
      maxSize := 50 }

/-! ## Session identity (`getSessionId` in `config.ts`)

The browser storage cell under `servergem_session_id` is modelled as an
`Option String`; the non-deterministic fresh identifier built from the
clock and a random suffix is a parameter.  The function returns the
identity handed to the caller together with the storage cell afterwards. -/

def getSessionId (storage : Option String) (fresh : String) : String × Option String :=
  match storage with
  | some sessionId => (sessionId, some sessionId)
  | none => (fresh, some fresh)

/-! ## Transport Client state machine (`WebSocketClient.ts`)

The mutable fields of the class are gathered in `ClientState`; each
private handler becomes a function on it.  Timer handles become Booleans
recording whether the timer is pending; the underlying socket is reduced
to its ready state (`wsOpen`/`wsConnecting`).  Emissions to the observer
sets (messages sent, errors emitted) are returned alongside the new
state.  The `lastConnected` timestamp and console logging are omitted. -/

inductive ConnectionState
  | idle
  | connecting
  | connected
  | reconnecting
  | disconnected
  | error
deriving DecidableEq, Repr

/-- An outbound message; the payload is opaque for the queueing claims. -/
structure ClientMessage where
  payload : String
deriving DecidableEq, Repr

/-- The `init` message assembled in `handleOpen` (the constant `metadata`
object is omitted). -/
structure InitMessage where
  session_id : String
  instance_id : String
  is_reconnect : Bool
deriving DecidableEq, Repr

structure ClientState where
  wsOpen : Bool
  wsConnecting : Bool
  status : ConnectionState
  statusError : Option String
  statusReconnectAttempt : Option Nat
  reconnectAttempts : Nat
  reconnectTimerSet : Bool
  heartbeatOn : Bool
  pongTimeoutPending : Bool
  isIntentionalClose : Bool
  messageQueue : List ClientMessage
  sessionId : String
  instanceId : String
deriving DecidableEq, Repr

/-- Embeds `updateConnectionStatus`: replaces the whole status record (fields not
passed become `undefined`). -/
def updateConnectionStatus (s : ClientState) (state : ConnectionState)
    (err : Option String := none) (attempt : Option Nat := none) : ClientState :=
  { s with status := state, statusError := err, statusReconnectAttempt := attempt }

/-- Embeds `queueMessage`: the oldest entry is shifted out when full, then the new one pushed. -/
def queueMessage (maxSize : Nat) (q : List ClientMessage) (m : ClientMessage) :
    List ClientMessage :=
  (if maxSize ≤ q.length then q.tail else q) ++ [m]

/-- Embeds `flushMessageQueue`: the queue is copied, cleared, and each retained
message is handed to `sendMessage` in copy order.  Result: the
transmission order, and the queue afterwards. -/
def flushMessageQueue (q : List ClientMessage) : List ClientMessage × List ClientMessage :=
  (q, [])

/-- Outcome of one `sendMessage` call, as seen by the caller. -/
inductive SendOutcome
  | sent
  | queued
  | sendFailed
  | threw (text : String)
deriving DecidableEq, Repr

/-- Embeds `sendMessage`.  The flag `sendOk` resolves whether the underlying
`ws.send`/serialization succeeds (its failure is caught, reported through
`emitError` — recorded by the `sendFailed` outcome — and `false` is
returned).  With the channel not open and queueing disabled the source
THROWS to the caller. -/
def sendMessage (cfg : WebSocketConfig) (wsOpen : Bool) (sendOk : Bool)
    (q : List ClientMessage) (m : ClientMessage) : SendOutcome × List ClientMessage :=
  if ¬ wsOpen then
    if cfg.messageQueue.enabled then
      (SendOutcome.queued, queueMessage cfg.messageQueue.maxSize q m)
    else
      (SendOutcome.threw "WebSocket not connected and message queue disabled", q)
  else
    if sendOk then (SendOutcome.sent, q) else (SendOutcome.sendFailed, q)

/-- Embeds `calculateBackoffDelay`, called with the already-incremented attempt
counter: `Math.min(initialDelay * multiplier^(attempts-1), maxDelay)`. -/
def calculateBackoffDelay (cfg : WebSocketConfig) (attempts : Nat) : ℚ :=
  min (cfg.reconnect.initialDelay * cfg.reconnect.backoffMultiplier ^ (attempts - 1))
    cfg.reconnect.maxDelay

/-- Embeds `handleReconnect`: early return when reconnection is disabled or the
close was intentional; permanent `error` status once the attempt counter
has reached the maximum; otherwise increment the counter, schedule the
retry timer and report `reconnecting`. -/
def handleReconnect (cfg : WebSocketConfig) (s : ClientState) : ClientState :=
  if !cfg.reconnect.enabled || s.isIntentionalClose then s
  else if cfg.reconnect.maxAttempts ≤ s.reconnectAttempts then
    updateConnectionStatus s ConnectionState.error (some "Max reconnection attempts reached")
  else
    let a := s.reconnectAttempts + 1
    updateConnectionStatus
      { s with reconnectAttempts := a, reconnectTimerSet := true }
      ConnectionState.reconnecting none (some a)

/-- Embeds `stopHeartbeat`: clear the ping interval and any pending pong
timeout. -/
def stopHeartbeat (s : ClientState) : ClientState :=
  { s with heartbeatOn := false, pongTimeoutPending := false }

/-- Embeds `handleClose`. -/
def handleClose (cfg : WebSocketConfig) (s : ClientState) : ClientState :=
  let s := stopHeartbeat { s with wsOpen := false, wsConnecting := false }
  if ¬ s.isIntentionalClose then
    handleReconnect cfg (updateConnectionStatus s ConnectionState.reconnecting)
  else
    updateConnectionStatus s ConnectionState.disconnected

/-- Embeds `handleError`: builds a fixed `Error` and emits it to the
error-handlers; the source changes neither the connection status nor any
reconnect state here.  The second component lists the emitted error
texts. -/
def handleError (s : ClientState) : ClientState × List String :=
  (s, ["WebSocket connection error"])

/-- Embeds `handlePong`: cancel the pong timeout currently referenced by the
timer field, when one is pending. -/
def handlePong (s : ClientState) : ClientState :=
  { s with pongTimeoutPending := false }

/-- The fixed heartbeat schedule of `startHeartbeat`: the source pings on
a hardcoded 15000 ms interval and arms a hardcoded 30000 ms pong timeout,
reading neither `config.heartbeat.interval` nor
`config.heartbeat.timeout`. -/
structure HeartbeatSpec where
  pingInterval : ℚ
  pongTimeout : ℚ
deriving DecidableEq, Repr

def startHeartbeatSpec : HeartbeatSpec where
  pingInterval := 15000
  pongTimeout := 30000

/-- The heartbeat started by `handleOpen`: gated on
`config.heartbeat.enabled` only, with the hardcoded schedule. -/
def heartbeatOnOpen (cfg : WebSocketConfig) : Option HeartbeatSpec :=
  if cfg.heartbeat.enabled then some startHeartbeatSpec else none

/-- What `handleOpen` emits: the `init` message (transmitted first), the
heartbeat schedule when started, and the queued messages flushed after it
in queue order. -/
structure OpenEffects where
  init : InitMessage
  heartbeat : Option HeartbeatSpec
  flushed : List ClientMessage
deriving DecidableEq, Repr

/-- Embeds `handleOpen`: record whether at least one reconnect attempt preceded
this open BEFORE resetting the counter, report `connected`, send `init`
with the persistent session identity, start the heartbeat when enabled,
flush the queue. -/
def handleOpen (cfg : WebSocketConfig) (s : ClientState) : ClientState × OpenEffects :=
  let wasReconnect : Bool := decide (0 < s.reconnectAttempts)
  let s := { s with wsOpen := true, wsConnecting := false, reconnectAttempts := 0 }
  let s := updateConnectionStatus s ConnectionState.connected none
    (some (if wasReconnect then 1 else 0))
  let s := { s with heartbeatOn := cfg.heartbeat.enabled }
  let flush := flushMessageQueue s.messageQueue
  ({ s with messageQueue := flush.2 },
   { init :=
      { session_id := s.sessionId
        instance_id := s.instanceId
        is_reconnect := wasReconnect }
     heartbeat := heartbeatOnOpen cfg
     flushed := flush.1 })

/-- Embeds `connect`: no-op when already open or connecting; otherwise reset the
intentional-close flag and open a fresh channel (of the config the source
reads only the wire address here, which the model omits). -/
def connect (_cfg : WebSocketConfig) (s : ClientState) : ClientState :=
  if s.wsOpen || s.wsConnecting then s
  else
    updateConnectionStatus
      { s with isIntentionalClose := false, wsConnecting := true }
      ConnectionState.connecting

/-- Embeds `cleanup`: stop the heartbeat, clear the reconnect timer, close and
drop the channel. -/
def cleanup (s : ClientState) : ClientState :=
  { stopHeartbeat s with reconnectTimerSet := false, wsOpen := false, wsConnecting := false }

/-- Embeds `disconnect`: mark the close intentional, tear everything down,
report `disconnected`. -/
def disconnect (s : ClientState) : ClientState :=
  updateConnectionStatus (cleanup { s with isIntentionalClose := true })
    ConnectionState.disconnected

/-- The externally-triggered events a live client reacts to after its
public calls: channel close, transport error, and each pending timer
firing.  `reconnectTimerFire` runs the retry scheduled by
`handleReconnect`; `connTimeoutFire` is the 10 s connection-establishment
timeout (a no-op unless still `connecting`); `heartbeatTick` is the ping
interval (arms a pong timeout only while connected); `pongTimeoutFire`
forcibly closes the channel when a pong timeout is still pending;
`pongEvt` is an inbound liveness pong. -/
inductive ClientEvent
  | closeEvt
  | errorEvt
  | reconnectTimerFire
  | connTimeoutFire
  | heartbeatTick
  | pongTimeoutFire
  | pongEvt
deriving DecidableEq, Repr

def step (cfg : WebSocketConfig) (s : ClientState) : ClientEvent → ClientState
  | ClientEvent.closeEvt => handleClose cfg s
  | ClientEvent.errorEvt => (handleError s).1
  | ClientEvent.reconnectTimerFire =>
      if s.reconnectTimerSet then connect cfg { s with reconnectTimerSet := false } else s
  | ClientEvent.connTimeoutFire =>
      if s.status = ConnectionState.connecting then
        handleReconnect cfg { s with wsOpen := false, wsConnecting := false }
      else s
  | ClientEvent.heartbeatTick =>
      if s.heartbeatOn && s.wsOpen then { s with pongTimeoutPending := true } else s
  | ClientEvent.pongTimeoutFire =>
      if s.pongTimeoutPending then
        { s with pongTimeoutPending := false, wsOpen := false, wsConnecting := false }
      else s
  | ClientEvent.pongEvt => handlePong s

/-! ## Timed heartbeat model (`startHeartbeat` / `handlePong`)

The pong-timeout behaviour of the source depends on real timers: each
ping runs `this.heartbeatTimeoutTimer = setTimeout(close, 30000)` WITHOUT
clearing a previously armed timeout, and `handlePong` clears exactly the
timer the field currently references.  The model gives every armed
timeout an identity and expiry, keeps the set of still-armed timeouts,
and the single field reference.  A trace interleaves pings, pongs and
timer expiries; validity requires the wall clock to advance and forbids
skipping an armed timer past its expiry. -/

structure HeartbeatState where
  nextId : Nat
  scheduled : List (Nat × Int)
  timerRef : Option Nat
  closed : Bool
deriving DecidableEq, Repr

inductive HbEvent
  | ping (t : Int)
  | pong (t : Int)
  | fire (id : Nat) (t : Int)
deriving DecidableEq, Repr

def HbEvent.time : HbEvent → Int
  | HbEvent.ping t => t
  | HbEvent.pong t => t
  | HbEvent.fire _ t => t

/-- One step: a ping arms a fresh 30000 ms timeout and overwrites the
field reference (the superseded timer stays armed); a pong clears the
referenced timer only; an expiring timer forcibly closes the channel. -/
def hbStep (s : HeartbeatState) : HbEvent → HeartbeatState
  | HbEvent.ping t =>
      { s with nextId := s.nextId + 1,
               scheduled := (s.nextId, t + 30000) :: s.scheduled,
               timerRef := some s.nextId }
  | HbEvent.pong _ =>
      match s.timerRef with
      | some id =>
          { s with scheduled := s.scheduled.filter (fun p => p.1 != id), timerRef := none }
      | none => s
  | HbEvent.fire id _ =>
      { s with scheduled := s.scheduled.filter (fun p => p.1 != id), closed := true }

def hbInit : HeartbeatState where
  nextId := 0
  scheduled := []
  timerRef := none
  closed := false

def hbRun (tr : List HbEvent) : HeartbeatState := tr.foldl hbStep hbInit

/-- Trace validity from a current clock and state: event times are
non-decreasing, no armed timer is skipped past its expiry, and a `fire`
names an armed timer at exactly its expiry instant. -/
def hbValidFrom : Int → HeartbeatState → List HbEvent → Bool
  | _, _, [] => true
  | now, s, e :: rest =>
      decide (now ≤ e.time)
      && s.scheduled.all (fun p => decide (e.time ≤ p.2))
      && (match e with
          | HbEvent.fire id t => s.scheduled.contains (id, t)
          | _ => true)
      && hbValidFrom e.time (hbStep s e) rest

def hbValid (tr : List HbEvent) : Bool := hbValidFrom 0 hbInit tr

/-- The ping at time `t` is answered by some pong strictly after it and
within the 30000 ms window. -/
def pingAnswered (tr : List HbEvent) (t : Int) : Bool :=
  tr.any (fun e =>
    match e with
    | HbEvent.pong u => decide (t < u) && decide (u ≤ t + 30000)
    | _ => false)

def everyPingAnswered (tr : List HbEvent) : Bool :=
  tr.all (fun e =>
    match e with
    | HbEvent.ping t => pingAnswered tr t
    | _ => true)

/-- Trace in which a pong answering the first of two outstanding pings
cancels only the timeout of the second; the first timeout stays armed and
expires. -/
def overlappingPingTrace : List HbEvent :=
  [HbEvent.ping 0, HbEvent.ping 15000, HbEvent.pong 16000, HbEvent.fire 0 30000]

/-- A run of non-overlapping answered ping/pong rounds: each pair is one
ping followed by its pong. -/
def pingPongTrace : List (Int × Int) → List HbEvent
  | [] => []
  | (a, b) :: rest => HbEvent.ping a :: HbEvent.pong b :: pingPongTrace rest

/-- Rounds are chronological, and every pong answers its ping after it,
inside the 30000 ms window, and before the next ping is sent. -/
def wellSpaced : Int → List (Int × Int) → Bool
  | _, [] => true
  | now, (a, b) :: rest =>
      decide (now ≤ a) && decide (a < b) && decide (b ≤ a + 30000) && wellSpaced b rest

/-! ## Remaining definitions used by the verified properties -/

/-- The `WebSocketClient` constructor: a fresh instance starts `idle`
with no channel, no timers, an empty queue, and the session identity
obtained from storage by `getSessionId`. -/
def mkClient (storage : Option String) (fresh instanceId : String) : ClientState where
  wsOpen := false
  wsConnecting := false
  status := ConnectionState.idle
  statusError := none
  statusReconnectAttempt := none
  reconnectAttempts := 0
  reconnectTimerSet := false
  heartbeatOn := false
  pongTimeoutPending := false
  isIntentionalClose := false
  messageQueue := []
  sessionId := (getSessionId storage fresh).1
  instanceId := instanceId

/-- The state an intentionally disconnected client is left in: close
marked intentional, status `disconnected`, every timer cleared, channel
gone. -/
def Quiescent (s : ClientState) : Prop :=
  s.isIntentionalClose = true
  ∧ s.status = ConnectionState.disconnected
  ∧ s.reconnectTimerSet = false
  ∧ s.heartbeatOn = false
  ∧ s.pongTimeoutPending = false
  ∧ s.wsOpen = false
  ∧ s.wsConnecting = false

/-- Log lines of a fully successful run, in the fixed stage order, with
each stage represented by its start, key-fact and completion milestones
as the backend emits them. -/
def successfulRunLog : List String :=
  [ "🔍 Running pre-flight checks",
    "✅ All pre-flight checks passed",
    "🚀 Starting repository clone",
    "Repository cloned",
    "Starting code analysis",
    "Analyzing project at /workspace/app",
    "Detected framework: fastapi",
    "Analysis complete",
    "Generating Dockerfile for fastapi",
    "💾 Saving Dockerfile",
    "✅ Dockerfile saved",
    "Security scan started",
    "No vulnerabilities found",
    "Building container image",
    "Container image built",
    "Deploying to Cloud Run",
    "Deployment progress: 50%",
    "🔍 Verifying deployment health",
    "Deployment successful" ]

/-! ## Theorems -/

/-- The backoff exponent grows with the attempt number. -/
theorem backoff_pow_le (n m : Nat) (h : n ≤ m) : ((3 : ℚ) / 2) ^ n ≤ ((3 : ℚ) / 2) ^ m :=
  pow_le_pow_right₀ (by norm_num) h

/-- C1: with the shipped config the scheduled reconnection delay for
attempt `n ≥ 1` equals `min(maxDelay, initialDelay * multiplier^(n-1))`;
attempt 1 gives 1000 ms, attempt 9 gives 6561000/256 ≈ 25629 ms, every
attempt from 10 on is capped at 30000 ms, and the delays are
non-decreasing in the attempt number.  Once the attempt counter has
reached the maximum of 10, `handleReconnect` reports status `error` with
the descriptive message, schedules no retry timer, leaves the counter
unchanged, and repeating it changes nothing further — reconnection stops
permanently. -/
theorem c1_backoff_formula_monotone_cap_and_stop
    (n m k : Nat) (s : ClientState)
    (hn : 1 ≤ n) (hnm : n ≤ m) (hk : 10 ≤ k)
    (hs : s.isIntentionalClose = false) (ha : 10 ≤ s.reconnectAttempts) :
    calculateBackoffDelay WS_CONFIG n = min 30000 (1000 * (3 / 2 : ℚ) ^ (n - 1))
    ∧ calculateBackoffDelay WS_CONFIG 1 = 1000
    ∧ calculateBackoffDelay WS_CONFIG 9 = 6561000 / 256
    ∧ (25628 : ℚ) < calculateBackoffDelay WS_CONFIG 9
    ∧ calculateBackoffDelay WS_CONFIG 9 < 25630
    ∧ calculateBackoffDelay WS_CONFIG k = 30000
    ∧ calculateBackoffDelay WS_CONFIG n ≤ calculateBackoffDelay WS_CONFIG m
    ∧ (handleReconnect WS_CONFIG s).status = ConnectionState.error
    ∧ (handleReconnect WS_CONFIG s).statusError = some "Max reconnection attempts reached"
    ∧ (handleReconnect WS_CONFIG s).reconnectTimerSet = s.reconnectTimerSet
    ∧ (handleReconnect WS_CONFIG s).reconnectAttempts = s.reconnectAttempts
    ∧ handleReconnect WS_CONFIG (handleReconnect WS_CONFIG s) = handleReconnect WS_CONFIG s := by
  have hform : ∀ j : Nat, calculateBackoffDelay WS_CONFIG j
      = min (1000 * (3 / 2 : ℚ) ^ (j - 1)) 30000 := fun _ => rfl
  have hcap : calculateBackoffDelay WS_CONFIG k = 30000 := by
    rw [hform k]
    refine min_eq_right ?_
    have hp := backoff_pow_le 9 (k - 1) (by omega)
    have h9 : (30000 : ℚ) ≤ 1000 * (3 / 2) ^ 9 := by norm_num
    linarith
  have hmono : calculateBackoffDelay WS_CONFIG n ≤ calculateBackoffDelay WS_CONFIG m := by
    rw [hform n, hform m]
    refine min_le_min ?_ le_rfl
    have hp := backoff_pow_le (n - 1) (m - 1) (by omega)
    linarith
  have hr : handleReconnect WS_CONFIG s
      = updateConnectionStatus s ConnectionState.error (some "Max reconnection attempts reached") := by
    simp [handleReconnect, WS_CONFIG, hs, ha]
  have hr2 : handleReconnect WS_CONFIG (handleReconnect WS_CONFIG s) = handleReconnect WS_CONFIG s := by
    rw [hr]
    simp [handleReconnect, WS_CONFIG, updateConnectionStatus, hs, ha]
  refine ⟨(hform n).trans (min_comm _ _), ?_, ?_, ?_, ?_, hcap, hmono, ?_, ?_, ?_, ?_, hr2⟩
  · rw [hform 1]; norm_num [min_def]
  · rw [hform 9]; norm_num [min_def]
  · rw [hform 9]; norm_num [min_def]
  · rw [hform 9]; norm_num [min_def]
  · rw [hr]; rfl
  · rw [hr]; rfl
  · rw [hr]; rfl
  · rw [hr]; rfl

/-- C1 witness: concrete instantiation at attempts 1, 9, 10 and a client
that has exhausted its 10 attempts. -/
theorem c1_backoff_formula_monotone_cap_and_stop_witness :
    calculateBackoffDelay WS_CONFIG 1 = 1000
    ∧ calculateBackoffDelay WS_CONFIG 10 = 30000
    ∧ (handleReconnect WS_CONFIG { mkClient none "sess" "inst" with reconnectAttempts := 10 }).status
        = ConnectionState.error := by
  have h := c1_backoff_formula_monotone_cap_and_stop 1 9 10
    { mkClient none "sess" "inst" with reconnectAttempts := 10 }
    (by norm_num) (by norm_num) (by norm_num) rfl (by norm_num [mkClient])
  exact ⟨h.2.1, h.2.2.2.2.2.1, h.2.2.2.2.2.2.2.1⟩

/-- C2 counterexample: with message queueing disabled and the channel not
open, `sendMessage` raises an exception to the caller instead of
reporting the failure through the observer channels — the never-throws
policy fails at this input. -/
theorem c2_counterexample_send_throws_when_queue_disabled :
    (sendMessage
        { WS_CONFIG with messageQueue := { enabled := false, maxSize := 50 } }
        false true [] { payload := "deploy" }).1
      = SendOutcome.threw "WebSocket not connected and message queue disabled" := rfl

/-- C2 amended: `sendMessage` raises an exception exactly when the
channel is not open and message queueing is disabled; in every other
situation it returns a Boolean — a failing transmission while open is
caught and reported via the error observers (outcome `sendFailed`), and
an offline message is queued when queueing is enabled (outcome
`queued`). -/
theorem c2_amended_send_throws_iff_queue_disabled
    (cfg : WebSocketConfig) (wsOpen sendOk : Bool) (q : List ClientMessage) (m : ClientMessage) :
    ((sendMessage cfg wsOpen sendOk q m).1
        = SendOutcome.threw "WebSocket not connected and message queue disabled"
      ↔ wsOpen = false ∧ cfg.messageQueue.enabled = false)
    ∧ (sendMessage cfg true false q m).1 = SendOutcome.sendFailed
    ∧ (sendMessage { cfg with messageQueue := { enabled := true, maxSize := cfg.messageQueue.maxSize } }
        false sendOk q m).1 = SendOutcome.queued := by
  cases wsOpen <;> cases hq : cfg.messageQueue.enabled <;> cases sendOk <;>
    simp [sendMessage, hq]

/-- Folding `queueMessage` over the whole offline call sequence keeps
exactly the most recent `n` messages (capacity at least one), in call
order. -/
theorem queueMessage_foldl_drop (n : Nat) (hn : 1 ≤ n) (msgs : List ClientMessage) :
    msgs.foldl (queueMessage n) [] = msgs.drop (msgs.length - n) := by
  induction msgs using List.reverseRecOn with
  | nil => simp
  | append_singleton ms m ih =>
    rw [List.foldl_append, List.foldl_cons, List.foldl_nil, ih]
    unfold queueMessage
    rcases le_or_lt n ms.length with hle | hlt
    · have hlen : (ms.drop (ms.length - n)).length = n := by
        rw [List.length_drop]; omega
      rw [if_pos (by omega : n ≤ (ms.drop (ms.length - n)).length)]
      rw [List.tail_drop, List.drop_append_eq_append_drop]
      have h1 : ms.length - n + 1 = (ms ++ [m]).length - n := by
        simp [List.length_append]; omega
      have h2 : (ms ++ [m]).length - n - ms.length = 0 := by
        simp [List.length_append]; omega
      rw [h1, h2]
      simp
    · have h0 : ms.length - n = 0 := by omega
      rw [h0, List.drop_zero]
      rw [if_neg (by omega : ¬ n ≤ ms.length)]
      have h1 : (ms ++ [m]).length - n = 0 := by
        simp [List.length_append]; omega
      rw [h1, List.drop_zero]

/-- C3: for any sequence of `sendMessage` calls made while the channel is
not open (queueing enabled, shipped config), the queue holds at most 50
messages — exactly the 50 most recent, the oldest evicted first on each
overflow — and flushing on reconnection transmits exactly the retained
messages in original enqueue order and empties the queue. -/
theorem c3_queue_bounded_and_fifo (msgs : List ClientMessage) :
    msgs.foldl (fun q m => (sendMessage WS_CONFIG false true q m).2) []
      = msgs.drop (msgs.length - 50)
    ∧ (msgs.foldl (fun q m => (sendMessage WS_CONFIG false true q m).2) []).length ≤ 50
    ∧ (flushMessageQueue (msgs.foldl (fun q m => (sendMessage WS_CONFIG false true q m).2) [])).1
        = msgs.drop (msgs.length - 50)
    ∧ (flushMessageQueue (msgs.foldl (fun q m => (sendMessage WS_CONFIG false true q m).2) [])).2
        = [] := by
  have hfun : (fun q m => (sendMessage WS_CONFIG false true q m).2)
      = queueMessage WS_CONFIG.messageQueue.maxSize := rfl
  have h := queueMessage_foldl_drop 50 (by norm_num) msgs
  have hmax : WS_CONFIG.messageQueue.maxSize = 50 := rfl
  rw [hfun, hmax, h]
  refine ⟨rfl, ?_, rfl, rfl⟩
  rw [List.length_drop]; omega

/-- An intentionally disconnected client is quiescent. -/
theorem quiescent_disconnect (s : ClientState) : Quiescent (disconnect s) := by
  simp [Quiescent, disconnect, cleanup, stopHeartbeat, updateConnectionStatus]

/-- Quiescence is preserved by every externally-triggered event. -/
theorem quiescent_step (cfg : WebSocketConfig) (s : ClientState) (ev : ClientEvent)
    (h : Quiescent s) : Quiescent (step cfg s ev) := by
  obtain ⟨h1, h2, h3, h4, h5, h6, h7⟩ := h
  cases ev <;>
    simp [step, handleClose, handleReconnect, handleError, handlePong, stopHeartbeat,
      updateConnectionStatus, connect, Quiescent, h1, h2, h3, h4, h5, h6, h7]

/-- C6: after an intentional `disconnect()`, no sequence of subsequent
events — channel closes, transport errors, inbound pongs, or any pending
timer firing — ever schedules a reconnect attempt or moves the status
away from `disconnected`, until `connect()` is explicitly called
again. -/
theorem c6_no_reconnect_after_intentional_disconnect
    (cfg : WebSocketConfig) (s : ClientState) (evs : List ClientEvent) :
    (evs.foldl (step cfg) (disconnect s)).status = ConnectionState.disconnected
    ∧ (evs.foldl (step cfg) (disconnect s)).reconnectTimerSet = false := by
  have key : ∀ t, Quiescent t → Quiescent (evs.foldl (step cfg) t) := by
    induction evs with
    | nil => exact fun t ht => ht
    | cons e rest ih =>
      intro t ht
      rw [List.foldl_cons]
      exact ih _ (quiescent_step cfg t e ht)
  have h := key _ (quiescent_disconnect s)
  exact ⟨h.2.1, h.2.2.1⟩

/-- C7: the session identity is read from storage when present, created
and persisted only when none exists, and carried unchanged by the client
through every lifecycle event; the `init` message assembled on every
successful open carries exactly this identity, with `is_reconnect` true
precisely when at least one reconnect attempt preceded that open. -/
theorem c7_session_identity_stable :
    (∀ sid fresh, getSessionId (some sid) fresh = (sid, some sid))
    ∧ (∀ fresh, getSessionId none fresh = (fresh, some fresh))
    ∧ (∀ sid fresh iid, (mkClient (some sid) fresh iid).sessionId = sid)
    ∧ (∀ cfg s, (handleOpen cfg s).2.init.session_id = s.sessionId
        ∧ (handleOpen cfg s).1.sessionId = s.sessionId
        ∧ ((handleOpen cfg s).2.init.is_reconnect = true ↔ 0 < s.reconnectAttempts))
    ∧ (∀ cfg s ev, (step cfg s ev).sessionId = s.sessionId)
    ∧ (∀ s, (disconnect s).sessionId = s.sessionId)
    ∧ (∀ cfg s, (connect cfg s).sessionId = s.sessionId) := by
  have hrec : ∀ cfg s, (handleReconnect cfg s).sessionId = s.sessionId := by
    intro cfg s
    unfold handleReconnect updateConnectionStatus
    split_ifs <;> rfl
  have hconn : ∀ cfg s, (connect cfg s).sessionId = s.sessionId := by
    intro cfg s
    unfold connect updateConnectionStatus
    split_ifs <;> rfl
  have hclose : ∀ cfg s, (handleClose cfg s).sessionId = s.sessionId := by
    intro cfg s
    simp only [handleClose, stopHeartbeat, updateConnectionStatus]
    split_ifs with h
    · rfl
    · rw [hrec]
  refine ⟨fun _ _ => rfl, fun _ => rfl, fun _ _ _ => rfl, ?_, ?_, fun _ => rfl, hconn⟩
  · intro cfg s
    refine ⟨rfl, rfl, ?_⟩
    simp [handleOpen]
  · intro cfg s ev
    cases ev with
    | closeEvt => exact hclose cfg s
    | errorEvt => rfl
    | reconnectTimerFire =>
      simp only [step]
      split_ifs with h
      · rw [hconn]
      · rfl
    | connTimeoutFire =>
      simp only [step]
      split_ifs with h
      · rw [hrec]
      · rfl
    | heartbeatTick =>
      simp only [step]
      split_ifs <;> rfl
    | pongTimeoutFire =>
      simp only [step]
      split_ifs <;> rfl
    | pongEvt => rfl

/-- C8 counterexample: a transport-level error event on a connected
client notifies the error-handlers, but the status stays `connected`
(not `error`) and no reconnection is scheduled — the claimed transition
and reconnect entry do not happen in `handleError`. -/
theorem c8_counterexample_error_event_changes_nothing :
    (handleError { mkClient none "sess" "inst" with
        wsOpen := true, status := ConnectionState.connected }).1.status
      = ConnectionState.connected
    ∧ (handleError { mkClient none "sess" "inst" with
        wsOpen := true, status := ConnectionState.connected }).1.reconnectTimerSet = false
    ∧ (handleError { mkClient none "sess" "inst" with
        wsOpen := true, status := ConnectionState.connected }).2
      = ["WebSocket connection error"] := ⟨rfl, rfl, rfl⟩

/-- C8 amended: on a transport-level error the client only notifies the
registered error-handlers, with the fixed text "WebSocket connection
error", changing no other state; the status transition and the reconnect
path are entered only by the close event following the error, which (for
an unintentional close with reconnection enabled and attempts remaining)
reports `reconnecting` and schedules the retry. -/
theorem c8_amended_error_only_notifies
    (cfg : WebSocketConfig) (s t : ClientState)
    (he : cfg.reconnect.enabled = true) (hi : t.isIntentionalClose = false)
    (hm : t.reconnectAttempts < cfg.reconnect.maxAttempts) :
    (handleError s).1 = s
    ∧ (handleError s).2 = ["WebSocket connection error"]
    ∧ (handleClose cfg t).status = ConnectionState.reconnecting
    ∧ (handleClose cfg t).reconnectTimerSet = true := by
  have hm' : ¬ cfg.reconnect.maxAttempts ≤ t.reconnectAttempts := by omega
  refine ⟨rfl, rfl, ?_, ?_⟩ <;>
    simp [handleClose, handleReconnect, stopHeartbeat, updateConnectionStatus, he, hi, hm']

/-- C8 witness: the amended behaviour at a freshly constructed client and
the shipped config. -/
theorem c8_amended_error_only_notifies_witness :
    (handleClose WS_CONFIG (mkClient none "sess" "inst")).status = ConnectionState.reconnecting
    ∧ (handleClose WS_CONFIG (mkClient none "sess" "inst")).reconnectTimerSet = true := by
  have h := c8_amended_error_only_notifies WS_CONFIG (mkClient none "sess" "inst")
    (mkClient none "sess" "inst") rfl rfl (by norm_num [mkClient, WS_CONFIG])
  exact ⟨h.2.2.1, h.2.2.2⟩

/-- C10: the configured heartbeat timing is inert — the heartbeat started
on a successful open depends only on `heartbeat.enabled` and always uses
the hardcoded 15000 ms ping interval and 30000 ms pong timeout, so the
shipped `WS_CONFIG.heartbeat.interval` (30000 ms) and
`WS_CONFIG.heartbeat.timeout` (5000 ms), and the interval/timeout values
of any overriding config, have no effect on behaviour. -/
theorem c10_heartbeat_timing_config_inert
    (cfg : WebSocketConfig) (s : ClientState) (he : cfg.heartbeat.enabled = true) :
    (∀ (c : WebSocketConfig) (i t : ℚ),
        heartbeatOnOpen
          { c with heartbeat := { enabled := c.heartbeat.enabled, interval := i, timeout := t } }
        = heartbeatOnOpen c)
    ∧ heartbeatOnOpen cfg = some { pingInterval := 15000, pongTimeout := 30000 }
    ∧ (handleOpen cfg s).2.heartbeat = some startHeartbeatSpec
    ∧ WS_CONFIG.heartbeat.interval = 30000
    ∧ WS_CONFIG.heartbeat.timeout = 5000 := by
  refine ⟨fun c i t => ?_, ?_, ?_, rfl, rfl⟩ <;>
    simp [heartbeatOnOpen, handleOpen, he, startHeartbeatSpec]

/-- C10 witness: the shipped config has the heartbeat enabled and yields
the hardcoded schedule. -/
theorem c10_heartbeat_timing_config_inert_witness :
    heartbeatOnOpen WS_CONFIG = some { pingInterval := 15000, pongTimeout := 30000 } :=
  (c10_heartbeat_timing_config_inert WS_CONFIG (mkClient none "sess" "inst") rfl).2.1

/-- C5 counterexample: a line that carries an error marker AND matches a
milestone pattern is classified as the milestone, not as an error — the
error classification does not take precedence. -/
theorem c5_counterexample_milestone_overrides_error_marker :
    hasErrorMarker "Error: Cloning repository timed out" = true
    ∧ parseBackendLog "Error: Cloning repository timed out"
      = some { stage := "repo_access", status := "in-progress", progress := 5, message := none } :=
  ⟨rfl, rfl⟩

/-- C5 amended: a line carrying an error marker is classified with status
`error` (stage `unknown`, progress 0, carrying the line text) only when
no milestone pattern matches it — error detection is the FINAL check of
`parseBackendLog`, so milestone patterns take precedence on overlapping
lines. -/
theorem c5_amended_error_classification_is_last_resort
    (msg : String) (he : hasErrorMarker msg = true) (hm : matchesMilestone msg = false) :
    parseBackendLog msg
      = some { stage := "unknown", status := "error", progress := 0, message := some msg } := by
  simp only [hasErrorMarker] at he
  simp only [matchesMilestone, Bool.or_eq_false_iff] at hm
  simp only [parseBackendLog]
  simp_all
  by_cases hc : includes msg "Cloning" = true <;>
    by_cases hb : includes msg "Building" = true <;>
      simp_all

/-- C5 witness: an error-marker line matching no milestone pattern is
classified as an error. -/
theorem c5_amended_error_classification_is_last_resort_witness :
    parseBackendLog "[ERROR] boom"
      = some { stage := "unknown", status := "error", progress := 0, message := some "[ERROR] boom" } :=
  c5_amended_error_classification_is_last_resort "[ERROR] boom" (by decide) (by decide)

/-- C9: over the successful-run log, taken in the fixed stage order,
every line is recognized, the stage labels appear in the fixed order, the
progress values are monotonically non-decreasing within 0..100, and the
final cloud-deployment success milestone yields exactly 100. -/
theorem c9_successful_run_progress_monotone :
    (successfulRunLog.map parseBackendLog).all Option.isSome = true
    ∧ List.Chain' (· ≤ ·) ((successfulRunLog.filterMap parseBackendLog).map StageUpdate.progress)
    ∧ ((successfulRunLog.filterMap parseBackendLog).map StageUpdate.progress).all
        (fun p => decide (0 ≤ p) && decide (p ≤ 100)) = true
    ∧ (successfulRunLog.filterMap parseBackendLog).map StageUpdate.stage
      = ["repo_access", "repo_access", "repo_access", "repo_access",
         "code_analysis", "code_analysis", "code_analysis", "code_analysis",
         "dockerfile_generation", "dockerfile_generation", "dockerfile_generation",
         "security_scan", "security_scan",
         "container_build", "container_build",
         "cloud_deployment", "cloud_deployment", "cloud_deployment", "cloud_deployment"]
    ∧ (successfulRunLog.filterMap parseBackendLog).getLast?
      = some { stage := "cloud_deployment", status := "success", progress := 100, message := none } := by
  have hupd : (successfulRunLog.filterMap parseBackendLog).map StageUpdate.progress
      = [1, 1, 5, 15, 20, 25, 30, 35, 40, 48, 50, 55, 60, 65, 80, 85, 90, 95, 100] := by
    decide
  refine ⟨by decide, ?_, ?_, by decide, by decide⟩
  · rw [hupd]
    simp only [List.chain'_cons, List.chain'_singleton, and_true]
    norm_num
  · rw [hupd]
    decide

/-- C4 counterexample: with two outstanding pings (15000 ms apart, 30000
ms timeout) the pong at t=16000 clears only the timeout of the second
ping; the orphaned first timeout fires at t=30000 and forcibly closes the
channel even though EVERY ping was answered within its window — the
claimed only-close-when-unanswered equivalence fails on this valid
trace. -/
theorem c4_counterexample_orphaned_timeout_closes_despite_pongs :
    hbValid overlappingPingTrace = true
    ∧ everyPingAnswered overlappingPingTrace = true
    ∧ (hbRun overlappingPingTrace).closed = true := by
  refine ⟨?_, ?_, ?_⟩ <;> decide

/-- Non-overlapping answered rounds leave no timeout armed and never
close the channel. -/
theorem pingPong_rounds_safe (ps : List (Int × Int)) :
    ∀ (now : Int) (s : HeartbeatState), s.scheduled = [] → s.closed = false →
      wellSpaced now ps = true →
      hbValidFrom now s (pingPongTrace ps) = true
      ∧ ((pingPongTrace ps).foldl hbStep s).scheduled = []
      ∧ ((pingPongTrace ps).foldl hbStep s).closed = false := by
  induction ps with
  | nil =>
    intro now s hsched hclosed _
    exact ⟨rfl, by simpa [pingPongTrace] using hsched, by simpa [pingPongTrace] using hclosed⟩
  | cons p rest ih =>
    obtain ⟨a, b⟩ := p
    intro now s hsched hclosed hws
    obtain ⟨nid, sched, ref, cl⟩ := s
    simp only at hsched hclosed
    subst hsched
    subst hclosed
    simp only [wellSpaced, Bool.and_eq_true, decide_eq_true_eq] at hws
    obtain ⟨⟨⟨h1, h2⟩, h3⟩, h4⟩ := hws
    have hstep2 : hbStep (hbStep ⟨nid, [], ref, false⟩ (HbEvent.ping a)) (HbEvent.pong b)
        = ⟨nid + 1, [], none, false⟩ := by
      simp [hbStep]
    have key := ih b ⟨nid + 1, [], none, false⟩ rfl rfl h4
    refine ⟨?_, ?_, ?_⟩
    · simp only [pingPongTrace, hbValidFrom, HbEvent.time, hbStep]
      simp [h1, h2.le, h3, key.1]
    · simp only [pingPongTrace, List.foldl_cons, hstep2]
      exact key.2.1
    · simp only [pingPongTrace, List.foldl_cons, hstep2]
      exact key.2.2

/-- C4 amended: every ping arms a 30000 ms pending-pong timeout, and a
pong cancels only the MOST RECENTLY armed timeout (the one the timer
field currently references); the channel is forcibly closed when an
armed timeout expires uncancelled.  Consequently, when each ping is
answered by a pong within its window and before the next ping is sent,
no forced close ever occurs and no timeout stays armed; and a ping whose
window elapses with no pong leads to the forced close (entering the
unintentional-close reconnect path). -/
theorem c4_amended_heartbeat_timeout_semantics
    (ps : List (Int × Int)) (a : Int) (hws : wellSpaced 0 ps = true) (ha : 0 ≤ a) :
    hbValid (pingPongTrace ps) = true
    ∧ (hbRun (pingPongTrace ps)).closed = false
    ∧ (hbRun (pingPongTrace ps)).scheduled = []
    ∧ hbValid [HbEvent.ping a, HbEvent.fire 0 (a + 30000)] = true
    ∧ (hbRun [HbEvent.ping a, HbEvent.fire 0 (a + 30000)]).closed = true := by
  have key := pingPong_rounds_safe ps 0 hbInit rfl rfl hws
  refine ⟨key.1, key.2.2, key.2.1, ?_, ?_⟩
  · simp [hbValid, hbValidFrom, hbStep, hbInit, HbEvent.time, ha]
  · simp [hbRun, hbStep, hbInit]

/-- C4 witness: two answered non-overlapping rounds stay open; an
unanswered ping at t=5 is closed at t=30005. -/
theorem c4_amended_heartbeat_timeout_semantics_witness :
    (hbRun (pingPongTrace [(0, 1000), (15000, 16000)])).closed = false
    ∧ (hbRun [HbEvent.ping 5, HbEvent.fire 0 (5 + 30000)]).closed = true := by
  have h := c4_amended_heartbeat_timeout_semantics [(0, 1000), (15000, 16000)] 5
    (by decide) (by norm_num)
  exact ⟨h.2.1, h.2.2.2.2⟩

end Servergem
